import Mathlib

/-!
Shallow embedding of the hydroponic telemetry state-evolution engine of
this repository: the correlated engine `HydroponicSystem`
(src/Demo/demo2/motoko.py) and the independent per-parameter oscillator
`HydroponicDataSensor` (src/Growa/contract/auto.py).

Values are modelled over the real numbers.  The ambient random draws of
the Python code (`random.uniform(a, b)` and `random.gauss(0, sigma)`)
are made explicit inputs: a uniform draw over `[a, b]` is written
`uniform a b r` with a unit draw `r` in `[0, 1]`, and a Gaussian draw
`gauss(0, sigma)` is written `sigma * z` with an unconstrained standard
draw `z`.  Python's `round(x, 2)` is modelled by `round2` (round to the
nearest multiple of `1/100`).  Python's `%` on integers agrees with
`Int.emod` for a positive modulus.
-/

noncomputable section

namespace ICP

/-- The six tracked parameters of `HydroponicSystem.current_state`. -/
inductive Param where
  | ec
  | ph
  | water_temp
  | air_temp
  | humidity
  | light
deriving DecidableEq

/-- `HydroponicSystem.current_state`: one real value per tracked parameter. -/
structure SensorState where
  ec : ℝ
  ph : ℝ
  water_temp : ℝ
  air_temp : ℝ
  humidity : ℝ
  light : ℝ

/-- Field access by parameter name. -/
def SensorState.get (s : SensorState) : Param → ℝ
  | .ec => s.ec
  | .ph => s.ph
  | .water_temp => s.water_temp
  | .air_temp => s.air_temp
  | .humidity => s.humidity
  | .light => s.light

/-- The initial `current_state` built by `HydroponicSystem.__init__`. -/
def initState : SensorState :=
  { ec := 1.5, ph := 6.0, water_temp := 22.0, air_temp := 25.0,
    humidity := 60.0, light := 500.0 }

/-- `variation_params[p]["drift"]`. -/
def driftOf : Param → ℝ
  | .ec => 0.1
  | .ph => 0.05
  | .water_temp => 0.2
  | .air_temp => 0.5
  | .humidity => 1.0
  | .light => 50.0

/-- `variation_params[p]["noise"]`. -/
def noiseOf : Param → ℝ
  | .ec => 0.05
  | .ph => 0.02
  | .water_temp => 0.1
  | .air_temp => 0.2
  | .humidity => 0.5
  | .light => 20.0

/-- `limits[p]["min"]`. -/
def limitMin : Param → ℝ
  | .ec => 0.8
  | .ph => 5.5
  | .water_temp => 18.0
  | .air_temp => 20.0
  | .humidity => 50.0
  | .light => 100.0

/-- `limits[p]["max"]`. -/
def limitMax : Param → ℝ
  | .ec => 3.0
  | .ph => 6.5
  | .water_temp => 26.0
  | .air_temp => 30.0
  | .humidity => 70.0
  | .light => 1000.0

/-- The clamping pattern `max(lo, min(hi, v))` used throughout the code. -/
def clamp (lo hi v : ℝ) : ℝ := max lo (min hi v)

/-- `random.uniform(a, b)` desugared over a unit draw `r` in `[0, 1]`. -/
def uniform (a b r : ℝ) : ℝ := a + (b - a) * r

/-- The random draws consumed by one call to `generate_reading`: the unit
draw behind the night-time `random.uniform(0, 10)` for light, and per
parameter the unit draw behind `random.uniform(-drift, drift)` and the
standard Gaussian draw behind `random.gauss(0, noise)`. -/
structure TickDraws where
  rNight : ℝ
  r : Param → ℝ
  z : Param → ℝ

/-- `HydroponicSystem._apply_daily_cycle(hour)`, with the night-time
uniform draw for light passed in as `night`. -/
def applyDailyCycle (hour : ℤ) (night : ℝ) (s : SensorState) : SensorState :=
  let day_progress : ℤ := (hour - 6) % 24
  let light :=
    if 6 ≤ hour ∧ hour < 18 then
      500 + 400 * Real.sin (Real.pi * (day_progress : ℝ) / 12)
    else
      night
  { s with
    light := light
    air_temp := 25 + 3 * Real.sin (Real.pi * (((day_progress - 2) % 24 : ℤ) : ℝ) / 12)
    water_temp := 22 + 2 * Real.sin (Real.pi * (((day_progress - 4) % 24 : ℤ) : ℝ) / 12)
    humidity := 60 + 5 * (-Real.sin (Real.pi * (day_progress : ℝ) / 12)) }

/-- The per-parameter `change` drawn in `_apply_random_drift`:
`random.uniform(-drift, drift) + random.gauss(0, noise)`. -/
def driftChange (d : TickDraws) (p : Param) : ℝ :=
  uniform (-driftOf p) (driftOf p) (d.r p) + noiseOf p * d.z p

/-- One loop body of `_apply_random_drift`: add the change, then clamp to
that parameter's registered limits. -/
def driftParam (d : TickDraws) (p : Param) (v : ℝ) : ℝ :=
  clamp (limitMin p) (limitMax p) (v + driftChange d p)

/-- `HydroponicSystem._apply_random_drift`, iterating the parameters in
the dict insertion order ec, ph, water_temp, air_temp, humidity, light. -/
def applyRandomDrift (d : TickDraws) (s : SensorState) : SensorState :=
  let s1 := { s  with ec := driftParam d .ec s.ec }
  let s2 := { s1 with ph := driftParam d .ph s1.ph }
  let s3 := { s2 with water_temp := driftParam d .water_temp s2.water_temp }
  let s4 := { s3 with air_temp := driftParam d .air_temp s3.air_temp }
  let s5 := { s4 with humidity := driftParam d .humidity s4.humidity }
  { s5 with light := driftParam d .light s5.light }

/-- The same drift loop iterated in the reverse parameter order, used to
state that the iteration order does not affect the outcome. -/
def applyRandomDriftRev (d : TickDraws) (s : SensorState) : SensorState :=
  let s1 := { s  with light := driftParam d .light s.light }
  let s2 := { s1 with humidity := driftParam d .humidity s1.humidity }
  let s3 := { s2 with air_temp := driftParam d .air_temp s2.air_temp }
  let s4 := { s3 with water_temp := driftParam d .water_temp s3.water_temp }
  let s5 := { s4 with ph := driftParam d .ph s4.ph }
  { s5 with ec := driftParam d .ec s5.ec }

/-- `HydroponicSystem._apply_correlations`: pH is nudged by EC, then
humidity by air temperature, each with its own literal clamp bounds. -/
def applyCorrelations (s : SensorState) : SensorState :=
  let ph_change := (s.ec - 1.5) * (-0.1)
  let s1 := { s with ph := max 5.5 (min 6.5 (s.ph + ph_change)) }
  let humidity_change := (25 - s1.air_temp) * 0.5
  { s1 with humidity := max 50 (min 70 (s1.humidity + humidity_change)) }

/-- Python's `round(x, 2)`: round to the nearest multiple of `1/100`. -/
def round2 (x : ℝ) : ℝ := ((round (100 * x) : ℤ) : ℝ) / 100

/-- One wire reading `{readingType, readingValue, readingUnit}`. -/
structure Reading where
  readingType : String
  readingValue : ℝ
  readingUnit : String

/-- `HydroponicSystem.generate_reading`, with the current hour and the
tick's random draws passed in explicitly; returns the mutated state
together with the emitted list of readings. -/
def generateReading (hour : ℤ) (d : TickDraws) (s : SensorState) :
    SensorState × List Reading :=
  let s1 := applyDailyCycle hour (uniform 0 10 d.rNight) s
  let s2 := applyRandomDrift d s1
  let s3 := applyCorrelations s2
  (s3,
    [ { readingType := "ec", readingValue := round2 s3.ec, readingUnit := "mS/cm" },
      { readingType := "ph", readingValue := round2 s3.ph, readingUnit := "pH" },
      { readingType := "water_temperature", readingValue := round2 s3.water_temp,
        readingUnit := "C" },
      { readingType := "air_temperature", readingValue := round2 s3.air_temp,
        readingUnit := "C" },
      { readingType := "humidity", readingValue := round2 s3.humidity,
        readingUnit := "%" },
      { readingType := "light", readingValue := round2 s3.light,
        readingUnit := "PPFD" } ])

/-- The stored state after a sequence of ticks, each tick supplying its
hour and its random draws. -/
def runEngine (s : SensorState) : List (ℤ × TickDraws) → SensorState
  | [] => s
  | (hour, d) :: rest => runEngine (generateReading hour d s).1 rest

/-- The sequence of Snapshots emitted along a run. -/
def snapshots (s : SensorState) : List (ℤ × TickDraws) → List (List Reading)
  | [] => []
  | (hour, d) :: rest =>
      (generateReading hour d s).2 :: snapshots (generateReading hour d s).1 rest

/-- The bounds invariant: every parameter is within its registered
limits. -/
def inBounds (s : SensorState) : Prop :=
  ∀ p : Param, limitMin p ≤ s.get p ∧ s.get p ≤ limitMax p

/-! ## The independent per-parameter oscillator (`HydroponicDataSensor`) -/

/-- The constructor arguments of `HydroponicDataSensor.__init__`. -/
structure SensorCfg where
  base_value : ℝ
  min_value : ℝ
  max_value : ℝ
  volatility : ℝ

/-- The mutable state of a `HydroponicDataSensor` instance. -/
structure SensorSt where
  current_value : ℝ
  time_index : ℕ

/-- `HydroponicDataSensor.__init__`: sets `current_value = base_value`
and `time_index = 0`, performing no validation of the bounds. -/
def mkSensorSt (cfg : SensorCfg) : SensorSt :=
  { current_value := cfg.base_value, time_index := 0 }

/-- `HydroponicDataSensor.get_next_value`, with the unit draw `r` behind
`random.uniform(-volatility, volatility)` passed in explicitly; returns
the new state and the returned (rounded) value. -/
def get_next_value (cfg : SensorCfg) (r : ℝ) (st : SensorSt) : SensorSt × ℝ :=
  let cycle_factor := Real.sin ((st.time_index : ℝ) * 0.5) * 0.3
  let random_factor := uniform (-cfg.volatility) cfg.volatility r
  let new_value := st.current_value + cycle_factor + random_factor
  let new_value2 := max cfg.min_value (min new_value cfg.max_value)
  ({ current_value := new_value2, time_index := st.time_index + 1 }, round2 new_value2)

/-- The sensor state after a sequence of calls, each with its own draw. -/
def runSensor (cfg : SensorCfg) (st : SensorSt) : List ℝ → SensorSt
  | [] => st
  | r :: rest => runSensor cfg (get_next_value cfg r st).1 rest

/-- A concrete set of legal draws for one tick: every unit draw is `1/2`
(the midpoint of `[0, 1]`) and every Gaussian draw is `0`. -/
def sampleDraws : TickDraws :=
  { rNight := 1/2, r := fun _ => 1/2, z := fun _ => 0 }

/-- A malformed sensor configuration with `min_value > max_value`
(`HydroponicDataSensor(base_value=1, min_value=2, max_value=1,
volatility=0)`), accepted by the constructor without complaint. -/
def badCfg : SensorCfg :=
  { base_value := 1, min_value := 2, max_value := 1, volatility := 0 }

/-! ## Helper lemmas -/

/-- `clamp` lands in `[lo, hi]` whenever `lo ≤ hi`. -/
theorem clamp_mem {lo hi : ℝ} (v : ℝ) (h : lo ≤ hi) :
    lo ≤ clamp lo hi v ∧ clamp lo hi v ≤ hi := by
  unfold clamp
  constructor
  · exact le_max_left _ _
  · exact max_le h (min_le_left _ _)

/-- Rounding is monotone. -/
theorem round_mono {x y : ℝ} (h : x ≤ y) : round x ≤ round y := by
  rw [round_eq, round_eq]
  exact Int.floor_le_floor (by linarith)

/-- `round2` moves a value by at most `1/200`. -/
theorem abs_round2_sub (x : ℝ) : |round2 x - x| ≤ 1 / 200 := by
  unfold round2
  have h := abs_sub_round (100 * x)
  rw [abs_sub_comm] at h
  have h100 : (0:ℝ) < 100 := by norm_num
  calc |((round (100 * x) : ℤ) : ℝ) / 100 - x|
      = |((round (100 * x) : ℤ) : ℝ) - 100 * x| / 100 := by
        rw [← abs_of_pos h100, ← abs_div]
        congr 1
        field_simp
    _ ≤ (1 / 2) / 100 := by gcongr
    _ = 1 / 200 := by norm_num

/-- Every registry row has `min ≤ max`. -/
theorem limitMin_le_limitMax (p : Param) : limitMin p ≤ limitMax p := by
  cases p <;> norm_num [limitMin, limitMax]

/-- The drift loop updates each field from its own previous value with its
own draws, independently of the other fields. -/
theorem applyRandomDrift_get (d : TickDraws) (s : SensorState) (p : Param) :
    (applyRandomDrift d s).get p = driftParam d p (s.get p) := by
  cases p <;> rfl

/-- Reversing the iteration order of the drift loop does not change the
resulting state. -/
theorem applyRandomDriftRev_eq (d : TickDraws) (s : SensorState) :
    applyRandomDriftRev d s = applyRandomDrift d s :=
  rfl

/-- After the drift stage every parameter is inside its registered
limits, whatever the input state and draws. -/
theorem drift_inBounds (d : TickDraws) (s : SensorState) :
    inBounds (applyRandomDrift d s) := by
  intro p
  rw [applyRandomDrift_get]
  exact clamp_mem _ (limitMin_le_limitMax p)

/-- Field characterization of the correlation stage. -/
theorem applyCorrelations_fields (s : SensorState) :
    (applyCorrelations s).ec = s.ec ∧
    (applyCorrelations s).water_temp = s.water_temp ∧
    (applyCorrelations s).air_temp = s.air_temp ∧
    (applyCorrelations s).light = s.light ∧
    (applyCorrelations s).ph = clamp 5.5 6.5 (s.ph + (s.ec - 1.5) * (-0.1)) ∧
    (applyCorrelations s).humidity =
      clamp 50 70 (s.humidity + (25 - s.air_temp) * 0.5) := by
  refine ⟨rfl, rfl, rfl, rfl, rfl, rfl⟩

/-- The correlation stage preserves the bounds invariant: pH and humidity
are re-clamped to their registry bounds, the other parameters are left
untouched. -/
theorem applyCorrelations_inBounds {s : SensorState} (h : inBounds s) :
    inBounds (applyCorrelations s) := by
  intro p
  cases p
  case ec => exact h .ec
  case water_temp => exact h .water_temp
  case air_temp => exact h .air_temp
  case light => exact h .light
  case ph =>
    have h2 := @clamp_mem 5.5 6.5
      (s.ph + (s.ec - 1.5) * (-0.1)) (by norm_num)
    have e1 : limitMin Param.ph = 5.5 := rfl
    have e2 : limitMax Param.ph = 6.5 := rfl
    simp only [SensorState.get, (applyCorrelations_fields s).2.2.2.2.1, e1, e2]
    exact h2
  case humidity =>
    have h2 := @clamp_mem 50 70
      (s.humidity + (25 - s.air_temp) * 0.5) (by norm_num)
    have e1 : limitMin Param.humidity = 50 := by norm_num [limitMin]
    have e2 : limitMax Param.humidity = 70 := by norm_num [limitMax]
    simp only [SensorState.get, (applyCorrelations_fields s).2.2.2.2.2, e1, e2]
    exact h2

/-- After one full tick the stored state is inside the registered limits,
for any input state, any hour and any draws. -/
theorem tick_inBounds (hour : ℤ) (d : TickDraws) (s : SensorState) :
    inBounds (generateReading hour d s).1 :=
  applyCorrelations_inBounds (drift_inBounds d _)

/-- Running the engine preserves the bounds invariant. -/
theorem runEngine_preserves (l : List (ℤ × TickDraws)) (s : SensorState)
    (h : inBounds s) : inBounds (runEngine s l) := by
  induction l generalizing s with
  | nil => exact h
  | cons x rest ih =>
      exact ih _ (tick_inBounds x.1 x.2 s)

/-- Field characterization of the oscillator stage. -/
theorem applyDailyCycle_fields (hour : ℤ) (night : ℝ) (s : SensorState) :
    (applyDailyCycle hour night s).ec = s.ec ∧
    (applyDailyCycle hour night s).ph = s.ph ∧
    (applyDailyCycle hour night s).air_temp
      = 25 + 3 * Real.sin (Real.pi * ((((hour - 6) % 24 - 2) % 24 : ℤ) : ℝ) / 12) ∧
    (applyDailyCycle hour night s).water_temp
      = 22 + 2 * Real.sin (Real.pi * ((((hour - 6) % 24 - 4) % 24 : ℤ) : ℝ) / 12) ∧
    (applyDailyCycle hour night s).humidity
      = 60 - 5 * Real.sin (Real.pi * (((hour - 6) % 24 : ℤ) : ℝ) / 12) ∧
    ((6 ≤ hour ∧ hour < 18) →
      (applyDailyCycle hour night s).light
        = 500 + 400 * Real.sin (Real.pi * (((hour - 6) % 24 : ℤ) : ℝ) / 12)) ∧
    (¬(6 ≤ hour ∧ hour < 18) → (applyDailyCycle hour night s).light = night) := by
  unfold applyDailyCycle
  refine ⟨rfl, rfl, rfl, rfl, by ring, fun h => ?_, fun h => ?_⟩
  · simp only [if_pos h]
  · simp only [if_neg h]

/-- A value of the shape `c + a·sin θ` stays within `c ± a`. -/
theorem affine_sin_bounds (c a θ : ℝ) (ha : 0 ≤ a) :
    c - a ≤ c + a * Real.sin θ ∧ c + a * Real.sin θ ≤ c + a := by
  have h1 := Real.neg_one_le_sin θ
  have h2 := Real.sin_le_one θ
  constructor <;> nlinarith

/-- In the daylight window the day-progress reduces to `hour - 6`. -/
theorem day_progress_daylight {hour : ℤ} (h : 6 ≤ hour ∧ hour < 18) :
    (hour - 6) % 24 = hour - 6 := by
  omega

/-- During daylight hours the oscillator's sine argument for light lies in
`[0, π]`, so the sine is within `[0, 1]`. -/
theorem daylight_sin_range {hour : ℤ} (h : 6 ≤ hour ∧ hour < 18) :
    0 ≤ Real.sin (Real.pi * (((hour - 6) % 24 : ℤ) : ℝ) / 12) ∧
    Real.sin (Real.pi * (((hour - 6) % 24 : ℤ) : ℝ) / 12) ≤ 1 := by
  rw [day_progress_daylight h]
  have hp := Real.pi_pos
  have hd0 : (0:ℝ) ≤ ((hour - 6 : ℤ) : ℝ) := by
    have : (0:ℤ) ≤ hour - 6 := by omega
    exact_mod_cast this
  have hd12 : ((hour - 6 : ℤ) : ℝ) ≤ 12 := by
    have : (hour - 6 : ℤ) ≤ 12 := by omega
    exact_mod_cast this
  refine ⟨Real.sin_nonneg_of_nonneg_of_le_pi ?_ ?_, Real.sin_le_one _⟩
  · positivity
  · rw [div_le_iff₀ (by norm_num : (0:ℝ) < 12)]
    nlinarith

/-- After the oscillator stage: ec and ph untouched; air temperature,
water temperature and humidity inside their registered limits; light
inside its limits during daylight, and equal to the night draw otherwise. -/
theorem dailyCycle_stage_bounds (hour : ℤ) (night : ℝ) (s : SensorState) :
    (applyDailyCycle hour night s).ec = s.ec ∧
    (applyDailyCycle hour night s).ph = s.ph ∧
    (limitMin .air_temp ≤ (applyDailyCycle hour night s).air_temp ∧
      (applyDailyCycle hour night s).air_temp ≤ limitMax .air_temp) ∧
    (limitMin .water_temp ≤ (applyDailyCycle hour night s).water_temp ∧
      (applyDailyCycle hour night s).water_temp ≤ limitMax .water_temp) ∧
    (limitMin .humidity ≤ (applyDailyCycle hour night s).humidity ∧
      (applyDailyCycle hour night s).humidity ≤ limitMax .humidity) ∧
    ((6 ≤ hour ∧ hour < 18) →
      limitMin .light ≤ (applyDailyCycle hour night s).light ∧
      (applyDailyCycle hour night s).light ≤ limitMax .light) ∧
    (¬(6 ≤ hour ∧ hour < 18) → (applyDailyCycle hour night s).light = night) := by
  obtain ⟨hec, hph, hair, hwater, hhum, hlday, hlnight⟩ :=
    applyDailyCycle_fields hour night s
  refine ⟨hec, hph, ?_, ?_, ?_, fun h => ?_, hlnight⟩
  · rw [hair]
    have := affine_sin_bounds 25 3
      (Real.pi * ((((hour - 6) % 24 - 2) % 24 : ℤ) : ℝ) / 12) (by norm_num)
    constructor
    · calc limitMin .air_temp = (20:ℝ) := by norm_num [limitMin]
        _ ≤ _ := by nlinarith [this.1]
    · calc (25:ℝ) + 3 * _ ≤ 28 := by nlinarith [this.2]
        _ ≤ limitMax .air_temp := by norm_num [limitMax]
  · rw [hwater]
    have := affine_sin_bounds 22 2
      (Real.pi * ((((hour - 6) % 24 - 4) % 24 : ℤ) : ℝ) / 12) (by norm_num)
    constructor
    · calc limitMin .water_temp = (18:ℝ) := by norm_num [limitMin]
        _ ≤ _ := by nlinarith [this.1]
    · calc (22:ℝ) + 2 * _ ≤ 24 := by nlinarith [this.2]
        _ ≤ limitMax .water_temp := by norm_num [limitMax]
  · rw [hhum]
    have h1 := Real.neg_one_le_sin (Real.pi * (((hour - 6) % 24 : ℤ) : ℝ) / 12)
    have h2 := Real.sin_le_one (Real.pi * (((hour - 6) % 24 : ℤ) : ℝ) / 12)
    constructor
    · calc limitMin .humidity = (50:ℝ) := by norm_num [limitMin]
        _ ≤ _ := by nlinarith
    · calc (60:ℝ) - 5 * _ ≤ 65 := by nlinarith
        _ ≤ limitMax .humidity := by norm_num [limitMax]
  · rw [hlday h]
    have := daylight_sin_range h
    constructor
    · calc limitMin .light = (100:ℝ) := by norm_num [limitMin]
        _ ≤ _ := by nlinarith [this.1]
    · calc (500:ℝ) + 400 * _ ≤ 900 := by nlinarith [this.2]
        _ ≤ limitMax .light := by norm_num [limitMax]

/-- `round2` is monotone. -/
theorem round2_mono {x y : ℝ} (h : x ≤ y) : round2 x ≤ round2 y := by
  unfold round2
  have := @round_mono (100 * x) (100 * y) (by linarith)
  have hc : ((round (100 * x) : ℤ) : ℝ) ≤ ((round (100 * y) : ℤ) : ℝ) := by
    exact_mod_cast this
  linarith

/-- `round2` fixes the value 100. -/
theorem round2_hundred : round2 100 = 100 := by
  unfold round2
  have e : (100:ℝ) * 100 = ((10000 : ℤ) : ℝ) := by norm_num
  rw [e, round_intCast]
  norm_num

/-- Values at least 100 stay at least 100 after `round2`. -/
theorem round2_ge_hundred {x : ℝ} (h : 100 ≤ x) : 100 ≤ round2 x := by
  calc (100:ℝ) = round2 100 := round2_hundred.symm
    _ ≤ round2 x := round2_mono h

/-- Evaluation of the independent oscillator's first step on the
malformed configuration `badCfg` (min 2 > max 1): the stored value
becomes 2 and the returned value is 2, above `max_value = 1`. -/
theorem get_next_value_badCfg :
    get_next_value badCfg 0 (mkSensorSt badCfg)
      = ({ current_value := 2, time_index := 1 }, 2) := by
  unfold get_next_value mkSensorSt badCfg uniform
  norm_num
  unfold round2
  have e : (100:ℝ) * 2 = ((200 : ℤ) : ℝ) := by norm_num
  rw [e, round_intCast]
  norm_num

/-! ## Claims -/

/-- C1 counterexample: the claim is false as stated.  At hour 0 (a legal
hour input) with the legal night draw `uniform 0 10 (1/2) = 5 ∈ [0, 10]`,
immediately after the Oscillator stage the light parameter equals 5,
strictly below light's registered minimum 100 — so `min ≤ current_value`
does not hold after every mutating stage, and the night-floor draw is not
inside the configured bounds. -/
theorem C1_counterexample_night_light :
    (0 ≤ uniform 0 10 (1/2) ∧ uniform 0 10 (1/2) ≤ 10) ∧
    (applyDailyCycle 0 (uniform 0 10 (1/2)) initState).get Param.light = 5 ∧
    ¬ (limitMin Param.light
        ≤ (applyDailyCycle 0 (uniform 0 10 (1/2)) initState).get Param.light) := by
  have hu : uniform 0 10 (1/2) = 5 := by norm_num [uniform]
  have hneg : ¬((6:ℤ) ≤ 0 ∧ (0:ℤ) < 18) := by decide
  have hl := (applyDailyCycle_fields 0 (uniform 0 10 (1/2)) initState).2.2.2.2.2.2 hneg
  refine ⟨⟨by norm_num [uniform], by norm_num [uniform]⟩, ?_, ?_⟩
  · show (applyDailyCycle 0 (uniform 0 10 (1/2)) initState).light = 5
    rw [hl, hu]
  · show ¬ (limitMin Param.light
      ≤ (applyDailyCycle 0 (uniform 0 10 (1/2)) initState).light)
    rw [hl, hu]
    norm_num [limitMin]

/-- C1 (amended): the bounds invariant `min ≤ current_value ≤ max` holds
immediately after the Drift stage and after the Correlation stage for
every parameter, every input state, every hour and all draws; after the
Oscillator stage it holds for ec and ph (untouched), for air_temp,
water_temp and humidity (their sinusoids stay inside the registered
ranges), and for light during daylight hours `6 ≤ hour < 18`; at night
hours the Oscillator leaves light equal to the uniform night draw from
`[0, 10]`, which is below light's registered minimum 100 and is only
restored to range by the following Drift stage's clamp. -/
theorem C1_bounds_after_each_stage :
    (∀ d s, inBounds (applyRandomDrift d s)) ∧
    (∀ d s, inBounds (applyCorrelations (applyRandomDrift d s))) ∧
    (∀ (hour : ℤ) (night : ℝ) (s : SensorState),
      (applyDailyCycle hour night s).ec = s.ec ∧
      (applyDailyCycle hour night s).ph = s.ph ∧
      (limitMin .air_temp ≤ (applyDailyCycle hour night s).air_temp ∧
        (applyDailyCycle hour night s).air_temp ≤ limitMax .air_temp) ∧
      (limitMin .water_temp ≤ (applyDailyCycle hour night s).water_temp ∧
        (applyDailyCycle hour night s).water_temp ≤ limitMax .water_temp) ∧
      (limitMin .humidity ≤ (applyDailyCycle hour night s).humidity ∧
        (applyDailyCycle hour night s).humidity ≤ limitMax .humidity) ∧
      ((6 ≤ hour ∧ hour < 18) →
        limitMin .light ≤ (applyDailyCycle hour night s).light ∧
        (applyDailyCycle hour night s).light ≤ limitMax .light) ∧
      (¬(6 ≤ hour ∧ hour < 18) → (applyDailyCycle hour night s).light = night)) :=
  ⟨drift_inBounds,
   fun d s => applyCorrelations_inBounds (drift_inBounds d s),
   dailyCycle_stage_bounds⟩

/-- Witness for C1 (amended) at hour 12 (daylight) and hour 0 (night). -/
theorem C1_bounds_after_each_stage_witness :
    (limitMin .light ≤ (applyDailyCycle 12 5 initState).light ∧
      (applyDailyCycle 12 5 initState).light ≤ limitMax .light) ∧
    (applyDailyCycle 0 5 initState).light = 5 :=
  ⟨(C1_bounds_after_each_stage.2.2 12 5 initState).2.2.2.2.2.1 (by decide),
   (C1_bounds_after_each_stage.2.2 0 5 initState).2.2.2.2.2.2 (by decide)⟩

/-- C2: after every tick — one call of `generate_reading` with any hour
and any random draws — every one of the six parameters of the stored
state is within its registered limits, for every number of consecutive
ticks from any starting state (in particular the initial state). -/
theorem C2_generation_bounds :
    (∀ (hour : ℤ) (d : TickDraws) (s : SensorState),
      inBounds (generateReading hour d s).1) ∧
    (∀ (s : SensorState) (l : List (ℤ × TickDraws)),
      l ≠ [] → inBounds (runEngine s l)) := by
  refine ⟨tick_inBounds, fun s l hl => ?_⟩
  match l with
  | [] => exact absurd rfl hl
  | (hour, d) :: rest =>
      exact runEngine_preserves rest _ (tick_inBounds hour d s)

/-- Witness for C2: one concrete tick from the initial state. -/
theorem C2_generation_bounds_witness :
    inBounds (runEngine initState [(12, sampleDraws)]) :=
  C2_generation_bounds.2 initState [(12, sampleDraws)] (by simp)

/-- C3: for every hour the Oscillator stage computes `day_progress =
(hour - 6) mod 24` and overwrites exactly light (daylight sinusoid, else
the night draw), air_temp, water_temp and humidity (as `60 - 5·sin`),
leaving ec and ph unchanged; at hour 12 the pre-drift light value is
exactly 900. -/
theorem C3_oscillator_formulas :
    (∀ (hour : ℤ) (night : ℝ) (s : SensorState),
      ((6 ≤ hour ∧ hour < 18) →
        (applyDailyCycle hour night s).light
          = 500 + 400 * Real.sin (Real.pi * (((hour - 6) % 24 : ℤ) : ℝ) / 12)) ∧
      (¬(6 ≤ hour ∧ hour < 18) → (applyDailyCycle hour night s).light = night) ∧
      (applyDailyCycle hour night s).air_temp
        = 25 + 3 * Real.sin (Real.pi * ((((hour - 6) % 24 - 2) % 24 : ℤ) : ℝ) / 12) ∧
      (applyDailyCycle hour night s).water_temp
        = 22 + 2 * Real.sin (Real.pi * ((((hour - 6) % 24 - 4) % 24 : ℤ) : ℝ) / 12) ∧
      (applyDailyCycle hour night s).humidity
        = 60 - 5 * Real.sin (Real.pi * (((hour - 6) % 24 : ℤ) : ℝ) / 12) ∧
      (applyDailyCycle hour night s).ec = s.ec ∧
      (applyDailyCycle hour night s).ph = s.ph) ∧
    (∀ (night : ℝ) (s : SensorState), (applyDailyCycle 12 night s).light = 900) := by
  constructor
  · intro hour night s
    obtain ⟨hec, hph, hair, hwater, hhum, hlday, hlnight⟩ :=
      applyDailyCycle_fields hour night s
    exact ⟨hlday, hlnight, hair, hwater, hhum, hec, hph⟩
  · intro night s
    have h := (applyDailyCycle_fields 12 night s).2.2.2.2.2.1 (by decide)
    rw [h]
    have ei : ((12:ℤ) - 6) % 24 = 6 := by decide
    rw [ei]
    have e2 : Real.pi * (((6:ℤ) : ℝ)) / 12 = Real.pi / 2 := by push_cast; ring
    rw [e2, Real.sin_pi_div_two]
    norm_num

/-- Witness for C3: daylight formula at hour 12, night branch at hour 0. -/
theorem C3_oscillator_formulas_witness :
    (applyDailyCycle 12 5 initState).light = 900 ∧
    (applyDailyCycle 0 5 initState).light = 5 :=
  ⟨C3_oscillator_formulas.2 5 initState,
   (C3_oscillator_formulas.1 0 5 initState).2.1 (by decide)⟩

/-- C4: the Drift stage updates every one of the six parameters from its
own previous value by `value + U(-drift, drift) + N(0, noise)` with that
parameter's own coefficients, immediately clamped to its registered
limits, and the iteration order does not affect the outcome (the reversed
loop computes the same state). -/
theorem C4_drift_per_parameter :
    (∀ (d : TickDraws) (s : SensorState) (p : Param),
      (applyRandomDrift d s).get p
        = clamp (limitMin p) (limitMax p)
            (s.get p
              + (uniform (-driftOf p) (driftOf p) (d.r p) + noiseOf p * d.z p))) ∧
    (∀ (d : TickDraws) (s : SensorState),
      applyRandomDriftRev d s = applyRandomDrift d s) :=
  ⟨fun d s p => applyRandomDrift_get d s p,
   fun d s => applyRandomDriftRev_eq d s⟩

/-- C5: the Correlation stage sets
`ph ← clamp(ph + (ec - 1.5)·(-0.1), 5.5, 6.5)` then
`humidity ← clamp(humidity + (25 - air_temp)·0.5, 50, 70)`, touching no
other parameter; at `ec = 1.5` the ph delta is 0, and at `ec = 2.5` the
delta is `-0.1`, strictly decreasing ph before clamping. -/
theorem C5_correlations (s : SensorState) :
    (applyCorrelations s).ph = clamp 5.5 6.5 (s.ph + (s.ec - 1.5) * (-0.1)) ∧
    (applyCorrelations s).humidity
      = clamp 50 70 (s.humidity + (25 - s.air_temp) * 0.5) ∧
    (applyCorrelations s).ec = s.ec ∧
    (applyCorrelations s).water_temp = s.water_temp ∧
    (applyCorrelations s).air_temp = s.air_temp ∧
    (applyCorrelations s).light = s.light ∧
    (s.ec = 1.5 → (s.ec - 1.5) * (-0.1) = 0) ∧
    (s.ec = 2.5 →
      (s.ec - 1.5) * (-0.1) = -0.1 ∧
      s.ph + (s.ec - 1.5) * (-0.1) < s.ph) := by
  refine ⟨rfl, rfl, rfl, rfl, rfl, rfl, fun h => ?_, fun h => ?_⟩
  · rw [h]; norm_num
  · rw [h]; norm_num

/-- Witness for C5: the no-op delta at the initial state (ec = 1.5), and
the strict decrease at ec = 2.5. -/
theorem C5_correlations_witness :
    ((initState.ec - 1.5) * (-0.1) = 0) ∧
    (({ initState with ec := 2.5 } : SensorState).ph
        + (({ initState with ec := 2.5 } : SensorState).ec - 1.5) * (-0.1)
      < ({ initState with ec := 2.5 } : SensorState).ph) :=
  ⟨(C5_correlations initState).2.2.2.2.2.2.1 rfl,
   ((C5_correlations { initState with ec := 2.5 }).2.2.2.2.2.2.2 rfl).2⟩

/-- C6: every Snapshot emitted by `generate_reading` is exactly the six
readings ec, ph, water_temperature, air_temperature, humidity, light in
that order, each value rounded to two decimals, with the unit strings
mS/cm, pH, C, C, %, PPFD, none of which is empty. -/
theorem C6_snapshot_shape (hour : ℤ) (d : TickDraws) (s : SensorState) :
    (generateReading hour d s).2
      = [ { readingType := "ec",
            readingValue := round2 (generateReading hour d s).1.ec,
            readingUnit := "mS/cm" },
          { readingType := "ph",
            readingValue := round2 (generateReading hour d s).1.ph,
            readingUnit := "pH" },
          { readingType := "water_temperature",
            readingValue := round2 (generateReading hour d s).1.water_temp,
            readingUnit := "C" },
          { readingType := "air_temperature",
            readingValue := round2 (generateReading hour d s).1.air_temp,
            readingUnit := "C" },
          { readingType := "humidity",
            readingValue := round2 (generateReading hour d s).1.humidity,
            readingUnit := "%" },
          { readingType := "light",
            readingValue := round2 (generateReading hour d s).1.light,
            readingUnit := "PPFD" } ] ∧
    (generateReading hour d s).2.length = 6 ∧
    (generateReading hour d s).2.map Reading.readingType
      = ["ec", "ph", "water_temperature", "air_temperature", "humidity", "light"] ∧
    (generateReading hour d s).2.map Reading.readingUnit
      = ["mS/cm", "pH", "C", "C", "%", "PPFD"] ∧
    "" ∉ (generateReading hour d s).2.map Reading.readingUnit := by
  have h4 : (generateReading hour d s).2.map Reading.readingUnit
      = ["mS/cm", "pH", "C", "C", "%", "PPFD"] := rfl
  refine ⟨rfl, rfl, rfl, h4, ?_⟩
  rw [h4]
  simp

/-- C7 counterexample: the claim is false as stated for arbitrary
configurations.  On `badCfg` (min_value = 2 > max_value = 1, volatility
0, so the only possible uniform draw is 0), the first call returns 2,
which is outside `[min_value, max_value]` because it exceeds
`max_value = 1`. -/
theorem C7_counterexample_return_out_of_range :
    uniform (-badCfg.volatility) badCfg.volatility 0 = 0 ∧
    (get_next_value badCfg 0 (mkSensorSt badCfg)).2 = 2 ∧
    ¬ ((get_next_value badCfg 0 (mkSensorSt badCfg)).2 ≤ badCfg.max_value) := by
  refine ⟨by norm_num [uniform, badCfg], ?_, ?_⟩
  · rw [get_next_value_badCfg]
  · rw [get_next_value_badCfg]
    norm_num [badCfg]

/-- One call of the independent oscillator keeps the stored value in
`[min_value, max_value]` whenever the configuration is well-formed. -/
theorem get_next_value_mem {cfg : SensorCfg}
    (h : cfg.min_value ≤ cfg.max_value) (r : ℝ) (st : SensorSt) :
    cfg.min_value ≤ (get_next_value cfg r st).1.current_value ∧
    (get_next_value cfg r st).1.current_value ≤ cfg.max_value :=
  ⟨le_max_left _ _, max_le h (min_le_right _ _)⟩

/-- Any number of calls keeps the stored value in range. -/
theorem runSensor_mem {cfg : SensorCfg} (h : cfg.min_value ≤ cfg.max_value)
    (l : List ℝ) (st : SensorSt)
    (hst : cfg.min_value ≤ st.current_value ∧ st.current_value ≤ cfg.max_value) :
    cfg.min_value ≤ (runSensor cfg st l).current_value ∧
    (runSensor cfg st l).current_value ≤ cfg.max_value := by
  induction l generalizing st with
  | nil => exact hst
  | cons r rest ih => exact ih _ (get_next_value_mem h r st)

/-- C7 (amended): whenever `min_value ≤ max_value`, each call computes
`cycle = sin(time_index·0.5)·0.3`, adds the uniform draw, clamps the
stored value into `[min_value, max_value]`, increments `time_index`, and
returns the stored value rounded to two decimals — which therefore lies
in `[min_value - 1/200, max_value + 1/200]` (rounding can leave the raw
interval by at most half of the last rounded digit); over any nonempty
sequence of calls the stored value stays in range.  Without
`min_value ≤ max_value` the clamp returns `min_value`, outside the
range, as the counterexample shows. -/
theorem C7_sensor_step (cfg : SensorCfg) (h : cfg.min_value ≤ cfg.max_value) :
    (∀ (r : ℝ) (st : SensorSt),
      (get_next_value cfg r st).1.current_value
        = max cfg.min_value
            (min (st.current_value + Real.sin ((st.time_index : ℝ) * 0.5) * 0.3
              + uniform (-cfg.volatility) cfg.volatility r) cfg.max_value) ∧
      (get_next_value cfg r st).1.time_index = st.time_index + 1 ∧
      (get_next_value cfg r st).2
        = round2 (get_next_value cfg r st).1.current_value ∧
      cfg.min_value ≤ (get_next_value cfg r st).1.current_value ∧
      (get_next_value cfg r st).1.current_value ≤ cfg.max_value ∧
      cfg.min_value - 1/200 ≤ (get_next_value cfg r st).2 ∧
      (get_next_value cfg r st).2 ≤ cfg.max_value + 1/200) ∧
    (∀ (st : SensorSt) (l : List ℝ), l ≠ [] →
      cfg.min_value ≤ (runSensor cfg st l).current_value ∧
      (runSensor cfg st l).current_value ≤ cfg.max_value) := by
  constructor
  · intro r st
    obtain ⟨hlo, hhi⟩ := get_next_value_mem h r st
    have hr := abs_round2_sub ((get_next_value cfg r st).1.current_value)
    rw [abs_le] at hr
    refine ⟨rfl, rfl, rfl, hlo, hhi, ?_, ?_⟩
    · have : (get_next_value cfg r st).2
          = round2 ((get_next_value cfg r st).1.current_value) := rfl
      rw [this]; linarith [hr.1]
    · have : (get_next_value cfg r st).2
          = round2 ((get_next_value cfg r st).1.current_value) := rfl
      rw [this]; linarith [hr.2]
  · intro st l hl
    match l with
    | [] => exact absurd rfl hl
    | r :: rest =>
        exact runSensor_mem h rest _ (get_next_value_mem h r st)

/-- Witness for C7 (amended), on the EC sensor configuration from
`auto.py`'s `main` (base 1850, min 1200, max 2500, volatility 50). -/
theorem C7_sensor_step_witness :
    (1200:ℝ) ≤ (get_next_value ⟨1850, 1200, 2500, 50⟩ 0
        (mkSensorSt ⟨1850, 1200, 2500, 50⟩)).1.current_value ∧
    (1200:ℝ) ≤ (runSensor ⟨1850, 1200, 2500, 50⟩
        (mkSensorSt ⟨1850, 1200, 2500, 50⟩) [0]).current_value :=
  ⟨((C7_sensor_step ⟨1850, 1200, 2500, 50⟩ (by norm_num)).1 0
      (mkSensorSt ⟨1850, 1200, 2500, 50⟩)).2.2.2.1,
   ((C7_sensor_step ⟨1850, 1200, 2500, 50⟩ (by norm_num)).2
      (mkSensorSt ⟨1850, 1200, 2500, 50⟩) [0] (by simp)).1⟩

/-- C8 (code bug): neither constructor validates the configured bounds.
`HydroponicDataSensor.__init__` accepts the malformed configuration
`badCfg` with min_value = 2 > max_value = 1 and silently builds its
state, and the very first call then returns 2 > max_value — exactly the
silent out-of-range output the spec says construction should prevent.
(`HydroponicSystem.__init__` takes no arguments and hard-codes a
registry, performing no validation either.) -/
theorem C8_no_construction_validation :
    mkSensorSt badCfg = { current_value := 1, time_index := 0 } ∧
    badCfg.max_value < badCfg.min_value ∧
    (get_next_value badCfg 0 (mkSensorSt badCfg)).2 = 2 ∧
    badCfg.max_value < (get_next_value badCfg 0 (mkSensorSt badCfg)).2 := by
  refine ⟨rfl, by norm_num [badCfg], ?_, ?_⟩
  · rw [get_next_value_badCfg]
  · rw [get_next_value_badCfg]
    norm_num [badCfg]

/-- C9: generation is deterministic — two runs from equal initial states
with equal per-tick hour inputs and equal random draw sequences produce
equal Snapshot sequences (and equal final states). -/
theorem C9_determinism (s1 s2 : SensorState) (l1 l2 : List (ℤ × TickDraws))
    (hs : s1 = s2) (hl : l1 = l2) :
    snapshots s1 l1 = snapshots s2 l2 ∧ runEngine s1 l1 = runEngine s2 l2 := by
  rw [hs, hl]
  exact ⟨rfl, rfl⟩

/-- Witness for C9: two identical one-tick runs. -/
theorem C9_determinism_witness :
    snapshots initState [(12, sampleDraws)]
      = snapshots initState [(12, sampleDraws)] ∧
    runEngine initState [(12, sampleDraws)]
      = runEngine initState [(12, sampleDraws)] :=
  C9_determinism initState initState [(12, sampleDraws)] [(12, sampleDraws)]
    rfl rfl

/-- C10: at night hours (hour < 6 or hour ≥ 18) the light value after a
full tick is at least 100 in the stored state, and the Snapshot's light
reading (its last entry) carries `round2` of that value, also at least
100 — so a Snapshot never reports light in the night-floor range
`[0, 10]`: the drift stage's clamp always pushes the oscillator's
night draw back up to light's minimum. -/
theorem C10_night_light_floor (hour : ℤ) (d : TickDraws) (s : SensorState)
    (h : hour < 6 ∨ 18 ≤ hour) :
    100 ≤ (generateReading hour d s).1.light ∧
    ((generateReading hour d s).2.map Reading.readingValue).getLast?
      = some (round2 (generateReading hour d s).1.light) ∧
    100 ≤ round2 (generateReading hour d s).1.light ∧
    ¬ (round2 (generateReading hour d s).1.light ≤ 10) := by
  have key : 100 ≤ (generateReading hour d s).1.light := by
    show 100 ≤ (applyCorrelations (applyRandomDrift d
      (applyDailyCycle hour (uniform 0 10 d.rNight) s))).light
    rw [(applyCorrelations_fields _).2.2.2.1]
    have h1 : (applyRandomDrift d
        (applyDailyCycle hour (uniform 0 10 d.rNight) s)).light
        = driftParam d Param.light
            (applyDailyCycle hour (uniform 0 10 d.rNight) s).light := rfl
    rw [h1]
    have h2 := (@clamp_mem (limitMin Param.light) (limitMax Param.light)
      ((applyDailyCycle hour (uniform 0 10 d.rNight) s).light
        + driftChange d Param.light) (limitMin_le_limitMax Param.light)).1
    calc (100:ℝ) = limitMin Param.light := by norm_num [limitMin]
      _ ≤ _ := h2
  have hr := round2_ge_hundred key
  exact ⟨key, rfl, hr, by linarith⟩

/-- Witness for C10 at hour 0 with the sample draws. -/
theorem C10_night_light_floor_witness :
    100 ≤ (generateReading 0 sampleDraws initState).1.light :=
  (C10_night_light_floor 0 sampleDraws initState (Or.inl (by norm_num))).1

end ICP
